import Mathlib

/-!
Verification development for the `db` package of skrolikov/vira-db
(src/db.go): a singleton SQL connection manager with `Init`, `Get`,
`Close`, `HealthCheck`, `monitorConnection` and `WithTransaction`,
plus the sentinel errors of src/errors.go.

The Go package state (`instance *sql.DB`, `once sync.Once`) is embedded
as an explicit state record; the effectful driver calls (open, ping,
close, begin, commit, rollback) are parametrised by an environment that
supplies each call's outcome, and the side effects the code issues are
recorded as an event trace. Go errors built with `errors.New` and
`fmt.Errorf` are embedded as a tree recording the rendered message and
the `%w`-wrapped cause (a `%v` argument only contributes to the message,
as in Go).
-/

namespace ViraDB

/-- A Go error value: either a sentinel from `errors.New`, or a
`fmt.Errorf` result recording its rendered message and the single
`%w`-wrapped cause (every `fmt.Errorf` call in src/db.go has exactly
one `%w` argument). -/
inductive GoError where
  | sentinel : String → GoError
  | wrapped : String → GoError → GoError
deriving DecidableEq, Repr

/-- `Error()` — the rendered message of an error. -/
def errMsg : GoError → String
  | .sentinel m => m
  | .wrapped m _ => m

/-- Go's `errors.Is`: target equality along the `Unwrap` chain. -/
def errorsIs : GoError → GoError → Bool
  | .sentinel m, t => GoError.sentinel m == t
  | .wrapped m c, t => GoError.wrapped m c == t || errorsIs c t

/-- src/errors.go: `ErrDBNotInitialized`. -/
def ErrDBNotInitialized : GoError :=
  .sentinel "база данных не инициализирована"

/-- src/errors.go: `ErrDBConnectionLost`. -/
def ErrDBConnectionLost : GoError :=
  .sentinel "потеряно соединение с базой данных"

/-- `fmt.Errorf("failed to open DB connection: %w", err)`. -/
def errOpenFailed (e : GoError) : GoError :=
  .wrapped ("failed to open DB connection: " ++ errMsg e) e

/-- `fmt.Errorf("failed to ping DB: %w", err)`. -/
def errPingFailed (e : GoError) : GoError :=
  .wrapped ("failed to ping DB: " ++ errMsg e) e

/-- `fmt.Errorf("failed to close DB connection: %w", err)`. -/
def errCloseFailed (e : GoError) : GoError :=
  .wrapped ("failed to close DB connection: " ++ errMsg e) e

/-- `fmt.Errorf("%w: %v", ErrDBConnectionLost, err)`: wraps the
sentinel; the driver cause contributes only its message text. -/
def errConnectionLost (cause : GoError) : GoError :=
  .wrapped (errMsg ErrDBConnectionLost ++ ": " ++ errMsg cause) ErrDBConnectionLost

/-- `fmt.Errorf("failed to begin transaction: %w", err)`. -/
def errBeginFailed (e : GoError) : GoError :=
  .wrapped ("failed to begin transaction: " ++ errMsg e) e

/-- `fmt.Errorf("failed to commit transaction: %w", err)`. -/
def errCommitFailed (e : GoError) : GoError :=
  .wrapped ("failed to commit transaction: " ++ errMsg e) e

/-- `fmt.Errorf("transaction error: %v, rollback error: %w", err, rbErr)`:
wraps the rollback error; the original error contributes its text. -/
def errTxRollbackFailed (txErr rbErr : GoError) : GoError :=
  .wrapped ("transaction error: " ++ errMsg txErr ++ ", rollback error: " ++ errMsg rbErr) rbErr

/-- Side effects issued by the package on the driver / log, recorded as
a trace. Handles are identified by `Nat` ids. -/
inductive Event where
  | openConn : Nat → Event
  | setPool : Nat → Event
  | pingConn : Nat → Event
  | closeConn : Nat → Event
  | logConnected : Event
  | logClosed : Event
  | startMonitor : Event
  | beginTx : Event
  | commitTx : Event
  | rollbackTx : Event
deriving DecidableEq, Repr

/-- The package-level state of src/db.go: `instance *sql.DB` (a handle
id when non-nil) and whether `once sync.Once` has fired. `nextConn`
supplies fresh handle ids for `sql.Open`. -/
structure MgrState where
  inst : Option Nat
  onceDone : Bool
  nextConn : Nat
deriving DecidableEq, Repr

/-- Fresh process state: `instance = nil`, `once` not fired. -/
def initialState : MgrState := ⟨none, false, 0⟩

/-- Outcomes the driver gives to this `Init` call's `sql.Open` and
`PingContext`. -/
structure InitEnv where
  openErr : Option GoError
  pingErr : Option GoError
deriving DecidableEq, Repr

/-- What `Init` produces: the new package state, the returned
`(*sql.DB, error)` pair, and the trace of driver/log effects. -/
structure InitResult where
  state : MgrState
  handle : Option Nat
  err : Option GoError
  events : List Event
deriving DecidableEq, Repr

/-- The `PingContext` timeout used inside `Init` (seconds). -/
def initPingTimeoutSeconds : Nat := 5

/-- src/db.go `Init`: under `once.Do`, open the connection, apply the
pool settings, ping with a timeout; on ping failure close the
connection and record the error; on success store the handle. Returns
`(instance, initErr)`. If `once` already fired, the body is skipped and
the current `instance` is returned with a nil error. -/
def Init (s : MgrState) (env : InitEnv) : InitResult :=
  if s.onceDone then
    ⟨s, s.inst, none, []⟩
  else
    match env.openErr with
    | some e =>
        ⟨{ s with onceDone := true }, s.inst, some (errOpenFailed e), []⟩
    | none =>
        let h := s.nextConn
        match env.pingErr with
        | some e =>
            ⟨{ s with onceDone := true, nextConn := s.nextConn + 1 }, s.inst,
              some (errPingFailed e),
              [.openConn h, .setPool h, .pingConn h, .closeConn h]⟩
        | none =>
            ⟨⟨some h, true, s.nextConn + 1⟩, some h, none,
              [.openConn h, .setPool h, .pingConn h, .logConnected]⟩

/-- src/db.go `Get`: returns `(instance, nil)` when `instance` is
non-nil, otherwise `(nil, ErrDBNotInitialized)`. -/
def Get (s : MgrState) : Option Nat × Option GoError :=
  match s.inst with
  | none => (none, some ErrDBNotInitialized)
  | some h => (some h, none)

/-- What `Close` produces: new state, returned error, effect trace. -/
structure CloseResult where
  state : MgrState
  err : Option GoError
  events : List Event
deriving DecidableEq, Repr

/-- src/db.go `Close`: nil `instance` is a successful no-op; otherwise
`instance.Close()` is issued — on failure the wrapped error is returned
and `instance` is left in place, on success `instance` is cleared.
`closeErr` is the driver's outcome for the `Close()` call. -/
def Close (s : MgrState) (closeErr : Option GoError) : CloseResult :=
  match s.inst with
  | none => ⟨s, none, []⟩
  | some h =>
      match closeErr with
      | some e => ⟨s, some (errCloseFailed e), [.closeConn h]⟩
      | none => ⟨{ s with inst := none }, none, [.closeConn h, .logClosed]⟩

/-- The `PingContext` timeout used inside `HealthCheck` (seconds):
`3*time.Second` in src/db.go. -/
def healthCheckTimeoutSeconds : Nat := 3

/-- src/db.go `HealthCheck`: `Get`, then a bounded ping; a ping failure
is reported as `fmt.Errorf("%w: %v", ErrDBConnectionLost, err)`.
`pingErr` is the driver's outcome for the ping. -/
def HealthCheck (s : MgrState) (pingErr : Option GoError) : Option GoError :=
  match Get s with
  | (_, some e) => some e
  | (_, none) =>
      match pingErr with
      | some e => some (errConnectionLost e)
      | none => none

/-- A signal received by the monitor loop's `select`: a ticker tick
(with the driver outcome of the health ping it triggers) or context
cancellation. -/
inductive MonSignal where
  | tick : Option GoError → MonSignal
  | cancel : MonSignal
deriving DecidableEq, Repr

/-- src/db.go `monitorConnection`: loop over the incoming signals; on
`ctx.Done` return, on a tick run `HealthCheck` (logging a failure but
taking no further action). Returns the list of `HealthCheck` outcomes,
one per tick processed before cancellation. -/
def monitorConnection (s : MgrState) : List MonSignal → List (Option GoError)
  | [] => []
  | .cancel :: _ => []
  | .tick pe :: rest => HealthCheck s pe :: monitorConnection s rest

/-- Outcomes the driver gives to `BeginTx`, `Rollback` and `Commit`
inside one `WithTransaction` call. -/
structure TxEnv where
  beginErr : Option GoError
  rollbackErr : Option GoError
  commitErr : Option GoError
deriving DecidableEq, Repr

/-- How the caller-supplied `fn` behaves on the transaction: returns
nil, returns an error, or panics. -/
inductive FnOutcome where
  | ok : FnOutcome
  | err : GoError → FnOutcome
  | panics : String → FnOutcome
deriving DecidableEq, Repr

/-- How a `WithTransaction` call terminates: a normal return carrying
`error`, or a re-raised panic. -/
inductive TxResult where
  | ret : Option GoError → TxResult
  | repanic : String → TxResult
deriving DecidableEq, Repr

/-- A `WithTransaction` call's termination plus its effect trace. -/
structure TxRun where
  result : TxResult
  events : List Event
deriving DecidableEq, Repr

/-- src/db.go `WithTransaction`: `Get`, `BeginTx`, then run `fn`; a
panic is recovered, the transaction rolled back (the rollback error
discarded) and the panic re-raised; an error from `fn` triggers a
rollback whose own failure is combined into the returned error; a nil
return triggers `Commit`, whose failure is wrapped. -/
def WithTransaction (s : MgrState) (env : TxEnv) (fn : FnOutcome) : TxRun :=
  match Get s with
  | (_, some e) => ⟨.ret (some e), []⟩
  | (_, none) =>
      match env.beginErr with
      | some e => ⟨.ret (some (errBeginFailed e)), []⟩
      | none =>
          match fn with
          | .panics p => ⟨.repanic p, [.beginTx, .rollbackTx]⟩
          | .err e =>
              match env.rollbackErr with
              | some rb =>
                  ⟨.ret (some (errTxRollbackFailed e rb)), [.beginTx, .rollbackTx]⟩
              | none => ⟨.ret (some e), [.beginTx, .rollbackTx]⟩
          | .ok =>
              match env.commitErr with
              | some ce => ⟨.ret (some (errCommitFailed ce)), [.beginTx, .commitTx]⟩
              | none => ⟨.ret none, [.beginTx, .commitTx]⟩

/-- One exported operation of the package, with the driver outcomes it
will observe. -/
inductive Op where
  | opInit : InitEnv → Op
  | opGet : Op
  | opClose : Option GoError → Op
  | opHealth : Option GoError → Op
  | opTx : TxEnv → FnOutcome → Op
deriving DecidableEq, Repr

/-- Whether the operation is an `Init` call. -/
def Op.isInit : Op → Bool
  | .opInit _ => true
  | _ => false

/-- Whether the operation is a `Close` call. -/
def Op.isClose : Op → Bool
  | .opClose _ => true
  | _ => false

/-- State effect of one operation (`Get`, `HealthCheck` and
`WithTransaction` never modify the package state). -/
def step (s : MgrState) : Op → MgrState
  | .opInit env => (Init s env).state
  | .opGet => s
  | .opClose ce => (Close s ce).state
  | .opHealth _ => s
  | .opTx _ _ => s

/-- Run a sequence of operations from a state. -/
def run (s : MgrState) (ops : List Op) : MgrState := ops.foldl step s

/-! ## Helper lemmas -/

/-- `errors.Is` is reflexive. -/
theorem errorsIs_self (e : GoError) : errorsIs e e = true := by
  cases e <;> simp [errorsIs]

/-- A state with no handle and `once` not yet fired is left unchanged
by every operation other than `Init`. -/
theorem step_of_notInit (s : MgrState) (op : Op) (hs : s.inst = none)
    (hop : op.isInit = false) : step s op = s := by
  cases op with
  | opInit env => simp [Op.isInit] at hop
  | opGet => rfl
  | opClose ce => simp [step, Close, hs]
  | opHealth pe => rfl
  | opTx env fn => rfl

/-- Once `once` has fired and the handle is gone, every operation is a
no-op on the state. -/
theorem step_of_closed (s : MgrState) (op : Op) (hs : s.inst = none)
    (ho : s.onceDone = true) : step s op = s := by
  cases op with
  | opInit env => simp [step, Init, ho]
  | opGet => rfl
  | opClose ce => simp [step, Close, hs]
  | opHealth pe => rfl
  | opTx env fn => rfl

/-- While the handle is live and `once` has fired, every operation
other than `Close` is a no-op on the state. -/
theorem step_of_ready (s : MgrState) (op : Op) (h : Nat) (_hs : s.inst = some h)
    (ho : s.onceDone = true) (hop : op.isClose = false) : step s op = s := by
  cases op with
  | opInit env => simp [step, Init, ho]
  | opGet => rfl
  | opClose ce => simp [Op.isClose] at hop
  | opHealth pe => rfl
  | opTx env fn => rfl

/-- Runs without `Init` from an uninitialized state stay there. -/
theorem run_of_notInit (ops : List Op) :
    ∀ s : MgrState, s.inst = none → s.onceDone = false →
      (ops.all fun o => !o.isInit) = true → run s ops = s := by
  induction ops with
  | nil => intro s _ _ _; rfl
  | cons op rest ih =>
      intro s hs ho hall
      simp only [List.all_cons, Bool.and_eq_true, Bool.not_eq_eq_eq_not, Bool.not_true] at hall
      have hstep : step s op = s := step_of_notInit s op hs hall.1
      show run (step s op) rest = s
      rw [hstep]
      exact ih s hs ho (by simpa using hall.2)

/-- Runs from a closed state (no handle, `once` fired) stay there. -/
theorem run_of_closed (ops : List Op) :
    ∀ s : MgrState, s.inst = none → s.onceDone = true → run s ops = s := by
  induction ops with
  | nil => intro s _ _; rfl
  | cons op rest ih =>
      intro s hs ho
      have hstep : step s op = s := step_of_closed s op hs ho
      show run (step s op) rest = s
      rw [hstep]
      exact ih s hs ho

/-- Runs without `Close` from a ready state stay there. -/
theorem run_of_ready (ops : List Op) :
    ∀ (s : MgrState) (h : Nat), s.inst = some h → s.onceDone = true →
      (ops.all fun o => !o.isClose) = true → run s ops = s := by
  induction ops with
  | nil => intro s _ _ _ _; rfl
  | cons op rest ih =>
      intro s h hs ho hall
      simp only [List.all_cons, Bool.and_eq_true, Bool.not_eq_eq_eq_not, Bool.not_true] at hall
      have hstep : step s op = s := step_of_ready s op h hs ho hall.1
      show run (step s op) rest = s
      rw [hstep]
      exact ih s h hs ho (by simpa using hall.2)

/-- A commit or rollback event. -/
def isTxCompletion (e : Event) : Bool :=
  e == Event.commitTx || e == Event.rollbackTx

/-- An `openConn` event. -/
def isOpenEvent : Event → Bool
  | .openConn _ => true
  | _ => false

/-- A `closeConn` event. -/
def isCloseEvent : Event → Bool
  | .closeConn _ => true
  | _ => false

/-- The monitor loop performs exactly one `HealthCheck` per tick
received before cancellation, in order, and stops at `cancel`. -/
theorem monitorConnection_ticks (s : MgrState) (pes : List (Option GoError))
    (rest : List MonSignal) :
    monitorConnection s (pes.map MonSignal.tick ++ MonSignal.cancel :: rest)
      = pes.map (HealthCheck s) := by
  induction pes with
  | nil => rfl
  | cons pe pes ih => simp [monitorConnection, ih]

/-! ## Claims -/

/-- C1, counterexample: after a successful `Init` followed by a
successful `Close`, `Get` fails with `ErrDBNotInitialized` — the very
same sentinel returned before any `Init` — so `Get` after shutdown does
not fail with a distinct `AlreadyClosed` error. -/
theorem c1_counterexample :
    (Get (Close (Init initialState ⟨none, none⟩).state none).state).2
        = some ErrDBNotInitialized ∧
    (Get initialState).2 = some ErrDBNotInitialized :=
  ⟨rfl, rfl⟩

/-- C1, amended: in every operation sequence, `Get` before any `Init`
fails with `ErrDBNotInitialized`; after a successful `Init` it returns
the shared handle until a `Close`; after a successful `Close` it fails
with `ErrDBNotInitialized` again (the code has no separate
`AlreadyClosed` error). -/
theorem c1_acquire_lifecycle (ops : List Op) :
    ((ops.all fun o => !o.isInit) = true →
      Get (run initialState ops) = (none, some ErrDBNotInitialized)) ∧
    (∀ (s : MgrState) (h : Nat), s.inst = some h → s.onceDone = true →
      (ops.all fun o => !o.isClose) = true →
      Get (run s ops) = (some h, none)) ∧
    (∀ s : MgrState, s.inst = none → s.onceDone = true →
      Get (run s ops) = (none, some ErrDBNotInitialized)) := by
  refine ⟨fun hall => ?_, fun s h hs ho hall => ?_, fun s hs ho => ?_⟩
  · rw [run_of_notInit ops initialState rfl rfl hall]; rfl
  · rw [run_of_ready ops s h hs ho hall]; simp [Get, hs]
  · rw [run_of_closed ops s hs ho]; simp [Get, hs]

/-- C1, witness for the amended theorem at concrete traces. -/
theorem c1_acquire_lifecycle_witness :
    Get (run initialState [Op.opGet, Op.opHealth none]) = (none, some ErrDBNotInitialized) ∧
    Get (run ⟨some 0, true, 1⟩ [Op.opGet, Op.opTx ⟨none, none, none⟩ FnOutcome.ok])
      = (some 0, none) ∧
    Get (run ⟨none, true, 1⟩ [Op.opInit ⟨none, none⟩, Op.opGet])
      = (none, some ErrDBNotInitialized) :=
  ⟨(c1_acquire_lifecycle [Op.opGet, Op.opHealth none]).1 rfl,
   (c1_acquire_lifecycle [Op.opGet, Op.opTx ⟨none, none, none⟩ FnOutcome.ok]).2.1
      ⟨some 0, true, 1⟩ 0 rfl rfl rfl,
   (c1_acquire_lifecycle [Op.opInit ⟨none, none⟩, Op.opGet]).2.2 ⟨none, true, 1⟩ rfl rfl⟩

/-- C2, counterexample: after a successful `Init` and a successful
`Close`, a second `Init` call returns a nil handle and a nil error — it
does not fail with any `AlreadyClosed` error. -/
theorem c2_counterexample :
    (Init (Close (Init initialState ⟨none, none⟩).state none).state ⟨none, none⟩).handle
        = none ∧
    (Init (Close (Init initialState ⟨none, none⟩).state none).state ⟨none, none⟩).err
        = none :=
  ⟨rfl, rfl⟩

/-- C2, amended: once `once` has fired, every further `Init` is a
complete no-op returning the stored handle (the existing one when
`Ready`, nil after `Close`) with a nil error and no driver effects — in
particular no second connection is opened, and after `Close` the call
does not fail, it returns nil handle and nil error. -/
theorem c2_init_idempotent (s : MgrState) (env : InitEnv) (ho : s.onceDone = true) :
    Init s env = ⟨s, s.inst, none, []⟩ ∧
    ((Init s env).events.countP isOpenEvent) = 0 := by
  have hv : Init s env = ⟨s, s.inst, none, []⟩ := by simp [Init, ho]
  exact ⟨hv, by rw [hv]; rfl⟩

/-- C2, witness: the amended theorem applied after a successful `Init`
(state `Ready`, handle 0). -/
theorem c2_init_idempotent_witness :
    Init ⟨some 0, true, 1⟩ ⟨none, none⟩ = ⟨⟨some 0, true, 1⟩, some 0, none, []⟩ ∧
    ((Init ⟨some 0, true, 1⟩ ⟨none, none⟩).events.countP isOpenEvent) = 0 :=
  c2_init_idempotent ⟨some 0, true, 1⟩ ⟨none, none⟩ rfl

/-- C3: whenever the transaction is successfully begun (manager holds a
handle and `BeginTx` succeeds), exactly one of commit or rollback is
issued before `WithTransaction` returns or re-panics, on every exit
path of `fn` (nil return, error return, or panic) and for every driver
outcome of rollback/commit. -/
theorem c3_tx_exactly_one_completion (s : MgrState) (env : TxEnv) (fn : FnOutcome)
    (h : Nat) (hs : s.inst = some h) (hb : env.beginErr = none) :
    ((WithTransaction s env fn).events.countP isTxCompletion) = 1 := by
  cases fn with
  | ok =>
      cases hc : env.commitErr with
      | none =>
          have hv : (WithTransaction s env .ok).events = [.beginTx, .commitTx] := by
            simp [WithTransaction, Get, hs, hb, hc]
          rw [hv]; decide
      | some ce =>
          have hv : (WithTransaction s env .ok).events = [.beginTx, .commitTx] := by
            simp [WithTransaction, Get, hs, hb, hc]
          rw [hv]; decide
  | err e =>
      cases hr : env.rollbackErr with
      | none =>
          have hv : (WithTransaction s env (.err e)).events = [.beginTx, .rollbackTx] := by
            simp [WithTransaction, Get, hs, hb, hr]
          rw [hv]; decide
      | some rb =>
          have hv : (WithTransaction s env (.err e)).events = [.beginTx, .rollbackTx] := by
            simp [WithTransaction, Get, hs, hb, hr]
          rw [hv]; decide
  | panics p =>
      have hv : (WithTransaction s env (.panics p)).events = [.beginTx, .rollbackTx] := by
        simp [WithTransaction, Get, hs, hb]
      rw [hv]; decide

/-- C3, witness: a ready manager, successful begin, `fn` returning nil. -/
theorem c3_tx_exactly_one_completion_witness :
    ((WithTransaction ⟨some 0, true, 1⟩ ⟨none, none, none⟩ FnOutcome.ok).events.countP
        isTxCompletion) = 1 :=
  c3_tx_exactly_one_completion ⟨some 0, true, 1⟩ ⟨none, none, none⟩ FnOutcome.ok 0 rfl rfl

/-- C4: when `fn` panics after the transaction has begun, the
transaction is rolled back, no commit is issued, and the very same
panic value is re-raised to the caller. -/
theorem c4_panic_rollback_repanic (s : MgrState) (env : TxEnv) (p : String)
    (h : Nat) (hs : s.inst = some h) (hb : env.beginErr = none) :
    (WithTransaction s env (.panics p)).result = .repanic p ∧
    Event.rollbackTx ∈ (WithTransaction s env (.panics p)).events ∧
    Event.commitTx ∉ (WithTransaction s env (.panics p)).events := by
  have hv : WithTransaction s env (.panics p)
      = ⟨.repanic p, [.beginTx, .rollbackTx]⟩ := by
    simp [WithTransaction, Get, hs, hb]
  rw [hv]
  refine ⟨rfl, ?_, ?_⟩ <;> simp

/-- C4, witness: a ready manager, successful begin, panicking `fn`. -/
theorem c4_panic_rollback_repanic_witness :
    (WithTransaction ⟨some 0, true, 1⟩ ⟨none, none, none⟩ (.panics "boom")).result
        = .repanic "boom" ∧
    Event.rollbackTx ∈ (WithTransaction ⟨some 0, true, 1⟩ ⟨none, none, none⟩
        (.panics "boom")).events ∧
    Event.commitTx ∉ (WithTransaction ⟨some 0, true, 1⟩ ⟨none, none, none⟩
        (.panics "boom")).events :=
  c4_panic_rollback_repanic ⟨some 0, true, 1⟩ ⟨none, none, none⟩ "boom" 0 rfl rfl

/-- C5: when `fn` returns an error after the transaction has begun, a
rollback is issued and no commit; if the rollback succeeds the call
returns the original error value unchanged; if the rollback fails the
call returns a single combined error that wraps the rollback failure
(inspectable via `errors.Is`) and whose message carries the original
error's text. -/
theorem c5_fn_error_rollback (s : MgrState) (env : TxEnv) (e : GoError)
    (h : Nat) (hs : s.inst = some h) (hb : env.beginErr = none) :
    (env.rollbackErr = none →
      WithTransaction s env (.err e) = ⟨.ret (some e), [.beginTx, .rollbackTx]⟩) ∧
    (∀ rb, env.rollbackErr = some rb →
      WithTransaction s env (.err e)
          = ⟨.ret (some (errTxRollbackFailed e rb)), [.beginTx, .rollbackTx]⟩ ∧
      errorsIs (errTxRollbackFailed e rb) rb = true ∧
      errMsg (errTxRollbackFailed e rb)
          = "transaction error: " ++ errMsg e ++ ", rollback error: " ++ errMsg rb) := by
  constructor
  · intro hr; simp [WithTransaction, Get, hs, hb, hr]
  · intro rb hr
    refine ⟨by simp [WithTransaction, Get, hs, hb, hr], ?_, rfl⟩
    simp [errTxRollbackFailed, errorsIs, errorsIs_self]

/-- C5, witness: both rollback outcomes at concrete inputs. -/
theorem c5_fn_error_rollback_witness :
    WithTransaction ⟨some 0, true, 1⟩ ⟨none, none, none⟩ (.err (.sentinel "boom"))
        = ⟨.ret (some (.sentinel "boom")), [.beginTx, .rollbackTx]⟩ ∧
    WithTransaction ⟨some 0, true, 1⟩ ⟨none, some (.sentinel "rb"), none⟩
        (.err (.sentinel "boom"))
        = ⟨.ret (some (errTxRollbackFailed (.sentinel "boom") (.sentinel "rb"))),
            [.beginTx, .rollbackTx]⟩ :=
  ⟨(c5_fn_error_rollback ⟨some 0, true, 1⟩ ⟨none, none, none⟩ (.sentinel "boom")
      0 rfl rfl).1 rfl,
   ((c5_fn_error_rollback ⟨some 0, true, 1⟩ ⟨none, some (.sentinel "rb"), none⟩
      (.sentinel "boom") 0 rfl rfl).2 (.sentinel "rb") rfl).1⟩

/-- C6, counterexample: a fully successful `Init` (connection opened,
pool configured, ping passed, handle stored) issues no
`startMonitor` effect — `Init` never invokes `monitorConnection`. -/
theorem c6_counterexample :
    (Init initialState ⟨none, none⟩).err = none ∧
    (Init initialState ⟨none, none⟩).handle = some 0 ∧
    Event.startMonitor ∉ (Init initialState ⟨none, none⟩).events := by
  refine ⟨rfl, rfl, ?_⟩
  decide

/-- C6, amended: on every successful `Init` the connection is opened,
the pool configured and the ping issued, and the handle is stored, but
no HealthMonitor background task is started (`monitorConnection` is
defined yet never called by `Init`); the monitor loop itself, were it
run, would perform one `HealthCheck` per tick until cancelled. -/
theorem c6_init_no_monitor (s : MgrState) (env : InitEnv)
    (ho : s.onceDone = false) (hoe : env.openErr = none) (hpe : env.pingErr = none) :
    (Init s env).handle = some s.nextConn ∧
    (Init s env).err = none ∧
    (Init s env).events
        = [.openConn s.nextConn, .setPool s.nextConn, .pingConn s.nextConn, .logConnected] ∧
    Event.startMonitor ∉ (Init s env).events ∧
    (∀ (pes : List (Option GoError)) (rest : List MonSignal),
      monitorConnection (Init s env).state (pes.map MonSignal.tick ++ MonSignal.cancel :: rest)
        = pes.map (HealthCheck (Init s env).state)) := by
  have hv : Init s env
      = ⟨⟨some s.nextConn, true, s.nextConn + 1⟩, some s.nextConn, none,
          [.openConn s.nextConn, .setPool s.nextConn, .pingConn s.nextConn, .logConnected]⟩ := by
    simp [Init, ho, hoe, hpe]
  refine ⟨by rw [hv], by rw [hv], by rw [hv], by rw [hv]; simp, fun pes rest => ?_⟩
  exact monitorConnection_ticks _ pes rest

/-- C6, witness: the amended theorem at the fresh state with a fully
successful environment. -/
theorem c6_init_no_monitor_witness :
    (Init initialState ⟨none, none⟩).handle = some 0 ∧
    (Init initialState ⟨none, none⟩).events
        = [.openConn 0, .setPool 0, .pingConn 0, .logConnected] :=
  ⟨(c6_init_no_monitor initialState ⟨none, none⟩ rfl rfl rfl).1,
   (c6_init_no_monitor initialState ⟨none, none⟩ rfl rfl rfl).2.2.1⟩

/-- C7, counterexample: after a first `Init` whose ping failed, a
second `Init` call — in an environment where open and ping would both
succeed — returns a nil handle and performs no driver effects: it does
not retry the initialization, and cannot succeed. -/
theorem c7_counterexample :
    (Init (Init initialState ⟨none, some (.sentinel "dial tcp: connection refused")⟩).state
        ⟨none, none⟩).handle = none ∧
    (Init (Init initialState ⟨none, some (.sentinel "dial tcp: connection refused")⟩).state
        ⟨none, none⟩).events = [] :=
  ⟨rfl, rfl⟩

/-- C7, amended: when the first `Init`'s reachability check fails, the
partially-opened connection is closed, a wrapped error is returned, the
manager keeps no handle (`Get` fails with `ErrDBNotInitialized`) — but
every later `Init` call is a complete no-op returning nil handle and
nil error: `sync.Once` makes retry impossible. -/
theorem c7_init_ping_failure (s : MgrState) (e : GoError)
    (hs : s.inst = none) (ho : s.onceDone = false) :
    (Init s ⟨none, some e⟩).err = some (errPingFailed e) ∧
    errorsIs (errPingFailed e) e = true ∧
    Event.closeConn s.nextConn ∈ (Init s ⟨none, some e⟩).events ∧
    (Init s ⟨none, some e⟩).state.inst = none ∧
    (Get (Init s ⟨none, some e⟩).state).2 = some ErrDBNotInitialized ∧
    (∀ env' : InitEnv, Init (Init s ⟨none, some e⟩).state env'
        = ⟨(Init s ⟨none, some e⟩).state, none, none, []⟩) := by
  have hv : Init s ⟨none, some e⟩
      = ⟨{ s with onceDone := true, nextConn := s.nextConn + 1 }, s.inst,
          some (errPingFailed e),
          [.openConn s.nextConn, .setPool s.nextConn, .pingConn s.nextConn,
            .closeConn s.nextConn]⟩ := by
    simp [Init, ho]
  refine ⟨by rw [hv], ?_, by rw [hv]; simp, by rw [hv]; exact hs,
    by rw [hv]; simp [Get, hs], fun env' => ?_⟩
  · simp [errPingFailed, errorsIs, errorsIs_self]
  · rw [hv]; simp [Init, hs]

/-- C7, witness: the amended theorem at the fresh state with a concrete
ping failure. -/
theorem c7_init_ping_failure_witness :
    (Init initialState ⟨none, some (.sentinel "no route to host")⟩).err
        = some (errPingFailed (.sentinel "no route to host")) ∧
    (Get (Init initialState ⟨none, some (.sentinel "no route to host")⟩).state).2
        = some ErrDBNotInitialized :=
  ⟨(c7_init_ping_failure initialState (.sentinel "no route to host") rfl rfl).1,
   (c7_init_ping_failure initialState (.sentinel "no route to host") rfl rfl).2.2.2.2.1⟩

/-- C8, counterexample: on a ready manager whose ping fails with a
driver cause, `HealthCheck` returns an error for which `errors.Is`
against that cause is false — the cause survives only as message text,
it is not inspectable through the wrap chain (only the
`ErrDBConnectionLost` sentinel is wrapped). -/
theorem c8_counterexample :
    HealthCheck ⟨some 0, true, 1⟩ (some (.sentinel "driver: bad connection"))
        = some (errConnectionLost (.sentinel "driver: bad connection")) ∧
    errorsIs (errConnectionLost (.sentinel "driver: bad connection"))
        (.sentinel "driver: bad connection") = false :=
  ⟨rfl, by decide⟩

/-- C8, amended: `HealthCheck` fails with `ErrDBNotInitialized`
whenever no handle is stored; otherwise it probes with a fixed
3-second timeout and, on probe failure, returns an error that wraps
the `ErrDBConnectionLost` sentinel (inspectable via `errors.Is`) and
carries the driver cause's text in its message — the cause value
itself is not wrapped. -/
theorem c8_health_check (s : MgrState) (cause : GoError) :
    (s.inst = none → ∀ pe, HealthCheck s pe = some ErrDBNotInitialized) ∧
    (∀ h : Nat, s.inst = some h → HealthCheck s none = none) ∧
    (∀ h : Nat, s.inst = some h →
      HealthCheck s (some cause) = some (errConnectionLost cause) ∧
      errorsIs (errConnectionLost cause) ErrDBConnectionLost = true ∧
      errMsg (errConnectionLost cause) = errMsg ErrDBConnectionLost ++ ": " ++ errMsg cause) ∧
    healthCheckTimeoutSeconds = 3 := by
  refine ⟨fun hn pe => ?_, fun h hs => ?_, fun h hs => ⟨?_, ?_, rfl⟩, rfl⟩
  · simp [HealthCheck, Get, hn]
  · simp [HealthCheck, Get, hs]
  · simp [HealthCheck, Get, hs]
  · simp only [errConnectionLost, errorsIs, errorsIs_self, Bool.or_eq_true]
    exact Or.inr (errorsIs_self ErrDBConnectionLost)

/-- C8, witness: both branches at concrete states. -/
theorem c8_health_check_witness :
    HealthCheck initialState (some (.sentinel "x")) = some ErrDBNotInitialized ∧
    HealthCheck ⟨some 0, true, 1⟩ none = none ∧
    HealthCheck ⟨some 0, true, 1⟩ (some (.sentinel "x"))
        = some (errConnectionLost (.sentinel "x")) :=
  ⟨(c8_health_check initialState (.sentinel "x")).1 rfl (some (.sentinel "x")),
   (c8_health_check ⟨some 0, true, 1⟩ (.sentinel "x")).2.1 0 rfl,
   ((c8_health_check ⟨some 0, true, 1⟩ (.sentinel "x")).2.2.1 0 rfl).1⟩

/-- C9: `Close` is idempotent — a nil handle makes it a successful
no-op that touches no resource; with a live handle a successful `Close`
issues exactly one driver close, and any further `Close` call succeeds
as a no-op without re-closing. -/
theorem c9_close_idempotent (s : MgrState) :
    (s.inst = none → ∀ ce, Close s ce = ⟨s, none, []⟩) ∧
    (∀ h : Nat, s.inst = some h →
      (Close s none).err = none ∧
      ((Close s none).events.countP isCloseEvent) = 1 ∧
      (∀ ce', Close (Close s none).state ce' = ⟨(Close s none).state, none, []⟩)) := by
  constructor
  · intro hn ce; simp [Close, hn]
  · intro h hs
    have hv : Close s none = ⟨{ s with inst := none }, none, [.closeConn h, .logClosed]⟩ := by
      simp [Close, hs]
    refine ⟨by rw [hv], by rw [hv]; rfl, fun ce' => ?_⟩
    rw [hv]; simp [Close]

/-- C9, witness: never-initialized no-op, and double `Close` after a
successful `Init`. -/
theorem c9_close_idempotent_witness :
    Close initialState none = ⟨initialState, none, []⟩ ∧
    (Close ⟨some 0, true, 1⟩ none).err = none ∧
    (Close (Close ⟨some 0, true, 1⟩ none).state none
        = ⟨(Close ⟨some 0, true, 1⟩ none).state, none, []⟩) :=
  ⟨(c9_close_idempotent initialState).1 rfl none,
   ((c9_close_idempotent ⟨some 0, true, 1⟩).2 0 rfl).1,
   ((c9_close_idempotent ⟨some 0, true, 1⟩).2 0 rfl).2.2 none⟩

/-- C10: when the driver's `Close()` fails, `Close` returns that error
wrapped (inspectable via `errors.Is`), leaves the stored handle in
place and the state unchanged, and a subsequent `Get` still returns the
same handle without error. -/
theorem c10_close_failure_keeps_handle (s : MgrState) (h : Nat) (e : GoError)
    (hs : s.inst = some h) :
    Close s (some e) = ⟨s, some (errCloseFailed e), [.closeConn h]⟩ ∧
    errorsIs (errCloseFailed e) e = true ∧
    Get (Close s (some e)).state = (some h, none) := by
  have hv : Close s (some e) = ⟨s, some (errCloseFailed e), [.closeConn h]⟩ := by
    simp [Close, hs]
  refine ⟨hv, ?_, by rw [hv]; simp [Get, hs]⟩
  simp [errCloseFailed, errorsIs, errorsIs_self]

/-- C10, witness: a ready manager whose driver close fails. -/
theorem c10_close_failure_keeps_handle_witness :
    Close ⟨some 0, true, 1⟩ (some (.sentinel "busy"))
        = ⟨⟨some 0, true, 1⟩, some (errCloseFailed (.sentinel "busy")), [.closeConn 0]⟩ ∧
    Get (Close ⟨some 0, true, 1⟩ (some (.sentinel "busy"))).state = (some 0, none) :=
  ⟨(c10_close_failure_keeps_handle ⟨some 0, true, 1⟩ 0 (.sentinel "busy") rfl).1,
   (c10_close_failure_keeps_handle ⟨some 0, true, 1⟩ 0 (.sentinel "busy") rfl).2.2⟩

end ViraDB
